import Mathlib

/-!
Verification of `pdf_extractor.py`, a command-line tool that extracts text
from a PDF file by trying three extraction backends (pdfplumber, PyPDF2,
pikepdf) and printing a JSON summary.

The three PDF libraries are opaque third parties.  A run of the program on a
fixed file is therefore modelled by the data the libraries hand back for that
file: either an exception (its `str(e)` message) or the per-page values the
wrapper loops consume.  Everything the script itself does — the `try/except`
wrappers, the string building, `str.strip()`, the length-100 fallback
heuristic, the selection at lines 70-72 and the printed JSON — is embedded
directly below.
-/

/-- Python strings, modelled as lists of characters. -/
abbrev PyStr := List Char

/-- The characters removed by Python's `str.strip()` (the six characters of
`string.whitespace`). -/
def isPyWhitespace (c : Char) : Bool :=
  c = ' ' || c = '\t' || c = '\n' || c = '\r' || c = '\x0b' || c = '\x0c'

/-- Python `s.lstrip()`: drop leading whitespace. -/
def lstrip (s : PyStr) : PyStr := s.dropWhile isPyWhitespace

/-- Python `s.rstrip()`: drop trailing whitespace. -/
def rstrip (s : PyStr) : PyStr := List.rdropWhile isPyWhitespace s

/-- Python `s.strip()`: drop whitespace at both ends. -/
def pyStrip (s : PyStr) : PyStr := rstrip (lstrip s)

/-- The string built by the pdfplumber loop (lines 24-29): for each page,
`page.extract_text()` yields `None` or a string; truthy page texts are
appended followed by `"\n\n"`. -/
def plumberConcat : List (Option PyStr) → PyStr
  | [] => []
  | none :: rest => plumberConcat rest
  | some t :: rest => (if t = [] then [] else t ++ "\n\n".toList) ++ plumberConcat rest

/-- `extract_with_pdfplumber` (lines 21-32).  The library call either raises
(`Except.error e` with `e = str(e)`) or yields the per-page
`page.extract_text()` results. -/
def extract_with_pdfplumber (b : Except PyStr (List (Option PyStr))) : PyStr :=
  match b with
  | .ok pages => pyStrip (plumberConcat pages)
  | .error e => "PDFPlumber Error: ".toList ++ e

/-- The string built by the PyPDF2 loop (lines 14-16): every page's
`extract_text()` result is appended followed by `"\n\n"`. -/
def pypdf2Concat : List PyStr → PyStr
  | [] => []
  | t :: rest => t ++ "\n\n".toList ++ pypdf2Concat rest

/-- `extract_with_pyPDF2` (lines 9-19). -/
def extract_with_pyPDF2 (b : Except PyStr (List PyStr)) : PyStr :=
  match b with
  | .ok pages => pyStrip (pypdf2Concat pages)
  | .error e => "PyPDF2 Error: ".toList ++ e

/-- The f-string of line 43: `f"Page {page_num + 1} - Content available\n"`
for 0-based `page_num = i`. -/
def pageLine (i : Nat) : PyStr :=
  "Page ".toList ++ (Nat.repr (i + 1)).toList ++ " - Content available\n".toList

/-- The string built by the pikepdf loop (lines 39-43): one `pageLine` per
page whose dictionary contains `/Contents`. -/
def pikeLines : Nat → List Bool → PyStr
  | _, [] => []
  | i, b :: rest => (if b then pageLine i else []) ++ pikeLines (i + 1) rest

/-- `extract_with_pikepdf` (lines 34-46); the library call either raises or
yields, per page, whether `'/Contents' in page`. -/
def extract_with_pikepdf (b : Except PyStr (List Bool)) : PyStr :=
  match b with
  | .ok pages =>
      let text := pikeLines 0 pages
      if text = [] then "No extractable text found with pikepdf".toList
      else pyStrip text
  | .error e => "PikePDF Error: ".toList ++ e

deriving instance DecidableEq for Except

/-- What the three libraries hand back for the file at the given path. -/
structure LibBehavior where
  pdfplumber : Except PyStr (List (Option PyStr))
  pypdf2 : Except PyStr (List PyStr)
  pikepdf : Except PyStr (List Bool)
deriving DecidableEq

/-- One invocation of the program: the command line (`sys.argv`, the script
name included), whether `Path(pdf_path).exists()`, and the library behavior
on that file. -/
structure RunInput where
  argv : List PyStr
  pathExists : Bool
  lib : LibBehavior
deriving DecidableEq

/-- The JSON object printed by `main`: either the error object of lines 50/56
or the success object of lines 74-79. -/
inductive Output where
  | errorObj (error : PyStr)
  | successObj (success : Bool) (text : PyStr) (length : Nat) (methods_used : List PyStr)
deriving DecidableEq

/-- `main` (lines 48-79): the printed JSON object together with the process
exit status.  The selection at lines 70-72 is kept verbatim, including the
re-test of the fallback condition and the `results.get(..., '')` defaults in
the branch where only pdfplumber ran. -/
def runMain (inp : RunInput) : Output × Nat :=
  if inp.argv.length ≠ 2 then
    (Output.errorObj "Please provide PDF file path".toList, 1)
  else
    let pdf_path := inp.argv.getD 1 []
    if inp.pathExists = false then
      (Output.errorObj ("File not found: ".toList ++ pdf_path), 1)
    else
      let r_pdfplumber := extract_with_pdfplumber inp.lib.pdfplumber
      if r_pdfplumber = [] ∨ r_pdfplumber.length < 100 then
        let r_pypdf2 := extract_with_pyPDF2 inp.lib.pypdf2
        let r_pikepdf := extract_with_pikepdf inp.lib.pikepdf
        let best_result :=
          if r_pdfplumber = [] ∨ r_pdfplumber.length < 100 then
            (if r_pypdf2 = [] then r_pikepdf else r_pypdf2)
          else r_pdfplumber
        (Output.successObj true best_result best_result.length
          ["pdfplumber".toList, "pypdf2".toList, "pikepdf".toList], 0)
      else
        let best_result :=
          if r_pdfplumber = [] ∨ r_pdfplumber.length < 100 then
            (if ([] : PyStr) = [] then ([] : PyStr) else ([] : PyStr))
          else r_pdfplumber
        (Output.successObj true best_result best_result.length
          ["pdfplumber".toList], 0)

/-- The `text` field of a printed object, when present. -/
def outText : Output → Option PyStr
  | .errorObj _ => none
  | .successObj _ t _ _ => some t

/-- The `methods_used` field of a printed object, when present. -/
def outMethods : Output → Option (List PyStr)
  | .errorObj _ => none
  | .successObj _ _ _ m => some m

/-- The claim-side reading of the backend contract: per-page texts joined
with one blank-line separator between consecutive pages. -/
def joinSep (sep : PyStr) : List PyStr → PyStr
  | [] => []
  | [t] => t
  | t :: u :: rest => t ++ sep ++ joinSep sep (u :: rest)

/-- The page texts the pdfplumber loop actually keeps: the truthy ones. -/
def truthyTexts : List (Option PyStr) → List PyStr
  | [] => []
  | none :: rest => truthyTexts rest
  | some t :: rest => if t = [] then truthyTexts rest else t :: truthyTexts rest

/-- Claim C8 as stated: the per-page texts concatenated with a blank-line
separator with only TRAILING whitespace stripped. -/
def rstripJoin (pages : List PyStr) : PyStr := rstrip (joinSep "\n\n".toList pages)

/-! ### Whitespace lemmas -/

theorem rstrip_append_of_ws (x w : PyStr) (hw : ∀ c ∈ w, isPyWhitespace c) :
    rstrip (x ++ w) = rstrip x := by
  unfold rstrip List.rdropWhile
  rw [List.reverse_append,
    List.dropWhile_append_of_pos (fun a ha => hw a (List.mem_reverse.mp ha))]

theorem pyStrip_append_of_ws (x w : PyStr) (hw : ∀ c ∈ w, isPyWhitespace c) :
    pyStrip (x ++ w) = pyStrip x := by
  unfold pyStrip lstrip
  rw [List.dropWhile_append]
  by_cases h : (x.dropWhile isPyWhitespace).isEmpty
  · rw [if_pos h]
    rw [List.isEmpty_iff.mp h, List.dropWhile_eq_nil_iff.mpr hw]
  · rw [if_neg h]
    exact rstrip_append_of_ws _ _ hw

theorem rstrip_pyStrip (s : PyStr) : rstrip (pyStrip s) = pyStrip s := by
  unfold pyStrip rstrip
  exact List.rdropWhile_idempotent _ _

theorem nn_all_ws : ∀ c ∈ ("\n\n".toList : PyStr), isPyWhitespace c := by decide

/-! ### The concatenations of the two text-extracting loops, related to
separator-joined page texts -/

theorem pypdf2Concat_eq_joinSep :
    ∀ pages : List PyStr, pages ≠ [] →
      pypdf2Concat pages = joinSep "\n\n".toList pages ++ "\n\n".toList := by
  intro pages
  induction pages with
  | nil => intro h; exact absurd rfl h
  | cons t rest ih =>
    intro _
    cases rest with
    | nil => simp [pypdf2Concat, joinSep]
    | cons u rs =>
      rw [show pypdf2Concat (t :: u :: rs)
            = t ++ "\n\n".toList ++ pypdf2Concat (u :: rs) from rfl]
      rw [ih (by simp)]
      simp [joinSep, List.append_assoc]

theorem pyStrip_pypdf2Concat (pages : List PyStr) :
    pyStrip (pypdf2Concat pages) = pyStrip (joinSep "\n\n".toList pages) := by
  cases pages with
  | nil => rfl
  | cons t rest =>
    rw [pypdf2Concat_eq_joinSep _ (by simp)]
    exact pyStrip_append_of_ws _ _ nn_all_ws

theorem plumberConcat_eq (pages : List (Option PyStr)) :
    plumberConcat pages = pypdf2Concat (truthyTexts pages) := by
  induction pages with
  | nil => rfl
  | cons o rest ih =>
    cases o with
    | none => simpa [plumberConcat, truthyTexts] using ih
    | some t =>
      by_cases h : t = []
      · simp [plumberConcat, truthyTexts, h, ih]
      · simp [plumberConcat, truthyTexts, h, pypdf2Concat, ih]

/-! ### Shape of the pikepdf text -/

theorem pikeLines_shape :
    ∀ (pages : List Bool) (i : Nat),
      pikeLines i pages = [] ∨ ∃ t, pikeLines i pages = 'P' :: t := by
  intro pages
  induction pages with
  | nil => intro i; exact Or.inl rfl
  | cons b rest ih =>
    intro i
    cases b with
    | false => exact ih (i + 1)
    | true =>
      exact Or.inr ⟨("age ".toList ++ (Nat.repr (i + 1)).toList
        ++ " - Content available\n".toList) ++ pikeLines (i + 1) rest, rfl⟩

theorem pyStrip_P_cons_ne_nil (t : PyStr) : pyStrip ('P' :: t) ≠ [] := by
  unfold pyStrip lstrip rstrip
  rw [List.dropWhile_cons_of_neg (by decide)]
  intro h
  have hP := List.rdropWhile_eq_nil_iff.mp h 'P' (by simp)
  simp [isPyWhitespace] at hP

/-! ### The two branches of the selection logic of `main` -/

theorem runMain_no_fallback (inp : RunInput) (h1 : inp.argv.length = 2)
    (h2 : inp.pathExists = true)
    (h3 : 100 ≤ (extract_with_pdfplumber inp.lib.pdfplumber).length) :
    runMain inp = (Output.successObj true (extract_with_pdfplumber inp.lib.pdfplumber)
      (extract_with_pdfplumber inp.lib.pdfplumber).length ["pdfplumber".toList], 0) := by
  have hc : ¬(extract_with_pdfplumber inp.lib.pdfplumber = []
      ∨ (extract_with_pdfplumber inp.lib.pdfplumber).length < 100) := by
    rintro (h | h)
    · rw [h] at h3; simp at h3
    · omega
  simp only [runMain]
  rw [if_neg (by omega), if_neg (by simp [h2]), if_neg hc, if_neg hc]

theorem runMain_fallback (inp : RunInput) (h1 : inp.argv.length = 2)
    (h2 : inp.pathExists = true)
    (h3 : (extract_with_pdfplumber inp.lib.pdfplumber).length < 100) :
    runMain inp = (Output.successObj true
      (if extract_with_pyPDF2 inp.lib.pypdf2 = [] then extract_with_pikepdf inp.lib.pikepdf
        else extract_with_pyPDF2 inp.lib.pypdf2)
      (if extract_with_pyPDF2 inp.lib.pypdf2 = [] then extract_with_pikepdf inp.lib.pikepdf
        else extract_with_pyPDF2 inp.lib.pypdf2).length
      ["pdfplumber".toList, "pypdf2".toList, "pikepdf".toList], 0) := by
  simp only [runMain]
  rw [if_neg (by omega), if_neg (by simp [h2]), if_pos (Or.inr h3), if_pos (Or.inr h3)]

/-! ### Claims -/

/-- C4: each backend wrapper is a total function into strings — in this
embedding its codomain is `PyStr`, not `Except`, so no library exception
escapes — and on a raising library call (`Except.error e`) it returns the
descriptive error string built from `str(e)`. -/
theorem C4_backends_never_raise : ∀ e : PyStr,
    extract_with_pdfplumber (Except.error e) = "PDFPlumber Error: ".toList ++ e ∧
    extract_with_pyPDF2 (Except.error e) = "PyPDF2 Error: ".toList ++ e ∧
    extract_with_pikepdf (Except.error e) = "PikePDF Error: ".toList ++ e :=
  fun _ => ⟨rfl, rfl, rfl⟩

/-- C8, counterexample to the claim as stated: with a single page whose text
carries leading whitespace, the pyPDF2 wrapper does not return the page texts
joined with a blank-line separator and stripped of trailing whitespace only —
Python's `str.strip()` removes the leading whitespace too. -/
theorem C8_counterexample :
    extract_with_pyPDF2 (Except.ok [" a".toList]) ≠ rstripJoin [" a".toList] := by
  decide

/-- C8, amended: on a successful library call, the pdfplumber and pyPDF2
wrappers return the per-page texts (for pdfplumber, the truthy ones)
concatenated with a blank-line separator and stripped of BOTH leading and
trailing whitespace; in particular the result never ends in whitespace
(`rstrip` fixes it). -/
theorem C8_amended : ∀ (pagesA : List (Option PyStr)) (pagesB : List PyStr),
    extract_with_pdfplumber (Except.ok pagesA)
        = pyStrip (joinSep "\n\n".toList (truthyTexts pagesA)) ∧
    extract_with_pyPDF2 (Except.ok pagesB)
        = pyStrip (joinSep "\n\n".toList pagesB) ∧
    rstrip (extract_with_pdfplumber (Except.ok pagesA))
        = extract_with_pdfplumber (Except.ok pagesA) ∧
    rstrip (extract_with_pyPDF2 (Except.ok pagesB))
        = extract_with_pyPDF2 (Except.ok pagesB) := by
  intro pagesA pagesB
  refine ⟨?_, ?_, ?_, ?_⟩
  · show pyStrip (plumberConcat pagesA) = _
    rw [plumberConcat_eq, pyStrip_pypdf2Concat]
  · show pyStrip (pypdf2Concat pagesB) = _
    exact pyStrip_pypdf2Concat pagesB
  · show rstrip (pyStrip (plumberConcat pagesA)) = _
    exact rstrip_pyStrip _
  · show rstrip (pyStrip (pypdf2Concat pagesB)) = _
    exact rstrip_pyStrip _

/-- C10: `extract_with_pikepdf` never returns the empty string: a raising
call yields a non-empty `"PikePDF Error: ..."` string, a file with no
content-bearing page yields the fixed non-empty placeholder, and otherwise
the stripped page lines still start with `'P'`. -/
theorem C10_pikepdf_never_empty :
    ∀ b : Except PyStr (List Bool), extract_with_pikepdf b ≠ [] := by
  intro b
  cases b with
  | error e =>
    show "PikePDF Error: ".toList ++ e ≠ []
    intro h
    exact absurd (List.append_eq_nil.mp h).1 (by decide)
  | ok pages =>
    show (if pikeLines 0 pages = [] then _ else pyStrip (pikeLines 0 pages)) ≠ []
    by_cases h : pikeLines 0 pages = []
    · rw [if_pos h]; decide
    · rw [if_neg h]
      rcases pikeLines_shape pages 0 with h0 | ⟨t, ht⟩
      · exact absurd h0 h
      · rw [ht]
        exact pyStrip_P_cons_ne_nil t

/-- Concrete run for claim C1: the primary yields the non-empty 5-character
string "short", the secondary yields non-empty text. -/
def inpC1 : RunInput :=
  ⟨["prog".toList, "f.pdf".toList], true,
    ⟨Except.ok [some "short".toList], Except.ok ["secondary text".toList], Except.ok [true]⟩⟩

/-- C1, counterexample to the claim as stated: on `inpC1` the primary backend
returns a non-empty result shorter than 100 characters, yet the printed
`text` field is NOT the primary's output — lines 70-72 overwrite it with the
secondary's result. -/
theorem C1_counterexample :
    extract_with_pdfplumber inpC1.lib.pdfplumber ≠ [] ∧
    (extract_with_pdfplumber inpC1.lib.pdfplumber).length < 100 ∧
    outText (runMain inpC1).1 ≠ some (extract_with_pdfplumber inpC1.lib.pdfplumber) := by
  decide

/-- C1, amended: for every input whose primary result is non-empty but
shorter than 100 characters, the printed `text` equals the SECONDARY's output
if that is non-empty, and otherwise the tertiary's output; the primary's
short result is discarded. -/
theorem C1_amended (inp : RunInput)
    (h1 : inp.argv.length = 2) (h2 : inp.pathExists = true)
    (_h3 : extract_with_pdfplumber inp.lib.pdfplumber ≠ [])
    (h4 : (extract_with_pdfplumber inp.lib.pdfplumber).length < 100) :
    outText (runMain inp).1 =
      some (if extract_with_pyPDF2 inp.lib.pypdf2 = []
            then extract_with_pikepdf inp.lib.pikepdf
            else extract_with_pyPDF2 inp.lib.pypdf2) := by
  rw [runMain_fallback inp h1 h2 h4]
  rfl

/-- C1 witness: the amended statement evaluated on the concrete run `inpC1`. -/
theorem C1_witness :
    outText (runMain inpC1).1 =
      some (if extract_with_pyPDF2 inpC1.lib.pypdf2 = []
            then extract_with_pikepdf inpC1.lib.pikepdf
            else extract_with_pyPDF2 inpC1.lib.pypdf2) :=
  C1_amended inpC1 rfl rfl (by decide) (by decide)

/-- C2: whenever the primary backend returns at least 100 characters, the
program prints success with `text` the primary's output, `length` its
character count and `methods_used = ["pdfplumber"]` — the fallback backends
are never invoked (only the pdfplumber key enters `results`). -/
theorem C2_long_primary_wins (inp : RunInput)
    (h1 : inp.argv.length = 2) (h2 : inp.pathExists = true)
    (h3 : 100 ≤ (extract_with_pdfplumber inp.lib.pdfplumber).length) :
    runMain inp = (Output.successObj true (extract_with_pdfplumber inp.lib.pdfplumber)
      (extract_with_pdfplumber inp.lib.pdfplumber).length ["pdfplumber".toList], 0) :=
  runMain_no_fallback inp h1 h2 h3

/-- Concrete run for claim C2: the primary yields 120 characters. -/
def inpC2 : RunInput :=
  ⟨["prog".toList, "f.pdf".toList], true,
    ⟨Except.ok [some (List.replicate 120 'a')], Except.ok [], Except.ok []⟩⟩

/-- C2 witness: the statement evaluated on the concrete run `inpC2`. -/
theorem C2_witness :
    runMain inpC2 = (Output.successObj true (extract_with_pdfplumber inpC2.lib.pdfplumber)
      (extract_with_pdfplumber inpC2.lib.pdfplumber).length ["pdfplumber".toList], 0) :=
  C2_long_primary_wins inpC2 rfl rfl (by decide)

/-- C5: whenever the primary result is empty or shorter than 100 characters,
`methods_used` is exactly the three backend names in invocation order. -/
theorem C5_methods_all_three (inp : RunInput)
    (h1 : inp.argv.length = 2) (h2 : inp.pathExists = true)
    (h3 : extract_with_pdfplumber inp.lib.pdfplumber = []
      ∨ (extract_with_pdfplumber inp.lib.pdfplumber).length < 100) :
    outMethods (runMain inp).1
      = some ["pdfplumber".toList, "pypdf2".toList, "pikepdf".toList] := by
  have hlt : (extract_with_pdfplumber inp.lib.pdfplumber).length < 100 := by
    rcases h3 with h | h
    · rw [h]; decide
    · exact h
  rw [runMain_fallback inp h1 h2 hlt]
  rfl

/-- Concrete run for claim C5: the primary yields an empty result. -/
def inpC5 : RunInput :=
  ⟨["prog".toList, "f.pdf".toList], true, ⟨Except.ok [], Except.ok [], Except.ok []⟩⟩

/-- C5 witness: the statement evaluated on the concrete run `inpC5`. -/
theorem C5_witness :
    outMethods (runMain inpC5).1
      = some ["pdfplumber".toList, "pypdf2".toList, "pikepdf".toList] :=
  C5_methods_all_three inpC5 rfl rfl (Or.inl rfl)

/-- C9: when the pdfplumber call raises and the resulting
`"PDFPlumber Error: ..."` string is at least 100 characters long, the program
treats it as a successful extraction: no fallback, `methods_used =
["pdfplumber"]`, success output whose `text` is the error message itself. -/
theorem C9_long_error_treated_as_text (inp : RunInput) (e : PyStr)
    (h1 : inp.argv.length = 2) (h2 : inp.pathExists = true)
    (h3 : inp.lib.pdfplumber = Except.error e)
    (h4 : 100 ≤ ("PDFPlumber Error: ".toList ++ e).length) :
    runMain inp = (Output.successObj true ("PDFPlumber Error: ".toList ++ e)
      ("PDFPlumber Error: ".toList ++ e).length ["pdfplumber".toList], 0) := by
  have hr : extract_with_pdfplumber inp.lib.pdfplumber = "PDFPlumber Error: ".toList ++ e := by
    rw [h3]
    rfl
  have h5 := runMain_no_fallback inp h1 h2 (by rw [hr]; exact h4)
  rw [hr] at h5
  exact h5

/-- Concrete run for claim C9: pdfplumber raises with a 100-character
message. -/
def inpC9 : RunInput :=
  ⟨["prog".toList, "f.pdf".toList], true,
    ⟨Except.error (List.replicate 100 'x'), Except.ok [], Except.ok []⟩⟩

/-- C9 witness: the statement evaluated on the concrete run `inpC9`. -/
theorem C9_witness :
    runMain inpC9 = (Output.successObj true
      ("PDFPlumber Error: ".toList ++ List.replicate 100 'x')
      ("PDFPlumber Error: ".toList ++ List.replicate 100 'x').length
      ["pdfplumber".toList], 0) :=
  C9_long_error_treated_as_text inpC9 (List.replicate 100 'x') rfl rfl rfl (by decide)

/-- C3: the program prints a structured JSON error object and exits with
status 1 exactly when the argument count is wrong (with message "Please
provide PDF file path") or the path does not exist (with message
"File not found: " followed by the path); in every other case it exits with
status 0 and prints a success object with `success = true`. -/
theorem C3_error_exit_iff (inp : RunInput) :
    ((inp.argv.length ≠ 2 ∨ inp.pathExists = false) ↔
      runMain inp = (Output.errorObj
        (if inp.argv.length ≠ 2 then "Please provide PDF file path".toList
         else "File not found: ".toList ++ inp.argv.getD 1 []), 1)) ∧
    ((inp.argv.length = 2 ∧ inp.pathExists = true) ↔
      ∃ t m, runMain inp = (Output.successObj true t t.length m, 0)) := by
  by_cases hA : inp.argv.length = 2
  · by_cases hB : inp.pathExists = true
    · have hsucc : ∃ t m, runMain inp = (Output.successObj true t t.length m, 0) := by
        rcases Nat.lt_or_ge (extract_with_pdfplumber inp.lib.pdfplumber).length 100
          with hlt | hge
        · exact ⟨_, _, runMain_fallback inp hA hB hlt⟩
        · exact ⟨_, _, runMain_no_fallback inp hA hB hge⟩
      constructor
      · constructor
        · rintro (h | h)
          · exact absurd hA h
          · rw [hB] at h
            exact absurd h (by decide)
        · intro h
          obtain ⟨t, m, hs⟩ := hsucc
          rw [hs] at h
          simp at h
      · exact ⟨fun _ => hsucc, fun _ => ⟨hA, hB⟩⟩
    · have hB' : inp.pathExists = false := by simpa using hB
      have hrun : runMain inp
          = (Output.errorObj ("File not found: ".toList ++ inp.argv.getD 1 []), 1) := by
        simp only [runMain]
        rw [if_neg (by omega), if_pos hB']
      constructor
      · constructor
        · intro _
          rw [hrun, if_neg (by omega)]
        · intro _
          exact Or.inr hB'
      · constructor
        · rintro ⟨-, hpe⟩
          exact absurd hpe hB
        · rintro ⟨t, m, h⟩
          rw [hrun] at h
          simp at h
  · have hrun : runMain inp = (Output.errorObj "Please provide PDF file path".toList, 1) := by
      simp only [runMain]
      rw [if_pos hA]
    constructor
    · constructor
      · intro _
        rw [hrun, if_pos hA]
      · intro _
        exact Or.inl hA
    · constructor
      · rintro ⟨h2, -⟩
        exact absurd h2 hA
      · rintro ⟨t, m, h⟩
        rw [hrun] at h
        simp at h

/-- C6: in every success object the program prints, the `length` field is the
character count of the `text` field. -/
theorem C6_length_matches_text (inp : RunInput) (t : PyStr) (n : Nat) (m : List PyStr)
    (h : (runMain inp).1 = Output.successObj true t n m) : n = t.length := by
  by_cases hA : inp.argv.length = 2
  · by_cases hB : inp.pathExists = true
    · rcases Nat.lt_or_ge (extract_with_pdfplumber inp.lib.pdfplumber).length 100
        with hlt | hge
      · rw [runMain_fallback inp hA hB hlt] at h
        have h2 : Output.successObj true
            (if extract_with_pyPDF2 inp.lib.pypdf2 = []
             then extract_with_pikepdf inp.lib.pikepdf
             else extract_with_pyPDF2 inp.lib.pypdf2)
            (if extract_with_pyPDF2 inp.lib.pypdf2 = []
             then extract_with_pikepdf inp.lib.pikepdf
             else extract_with_pyPDF2 inp.lib.pypdf2).length
            ["pdfplumber".toList, "pypdf2".toList, "pikepdf".toList]
            = Output.successObj true t n m := h
        injection h2 with e1 e2 e3 e4
        rw [← e2, ← e3]
      · rw [runMain_no_fallback inp hA hB hge] at h
        have h2 : Output.successObj true (extract_with_pdfplumber inp.lib.pdfplumber)
            (extract_with_pdfplumber inp.lib.pdfplumber).length ["pdfplumber".toList]
            = Output.successObj true t n m := h
        injection h2 with e1 e2 e3 e4
        rw [← e2, ← e3]
    · have hB' : inp.pathExists = false := by simpa using hB
      have hrun : runMain inp
          = (Output.errorObj ("File not found: ".toList ++ inp.argv.getD 1 []), 1) := by
        simp only [runMain]
        rw [if_neg (by omega), if_pos hB']
      rw [hrun] at h
      simp at h
  · have hrun : runMain inp = (Output.errorObj "Please provide PDF file path".toList, 1) := by
      simp only [runMain]
      rw [if_pos hA]
    rw [hrun] at h
    simp at h

/-- Concrete run for claim C6: everything empty, so the printed text is the
38-character pikepdf placeholder. -/
def inpC6 : RunInput :=
  ⟨["prog".toList, "f.pdf".toList], true, ⟨Except.ok [none], Except.ok [], Except.ok [false]⟩⟩

/-- C6 witness: the statement evaluated on the concrete run `inpC6`. -/
theorem C6_witness : 38 = ("No extractable text found with pikepdf".toList : PyStr).length :=
  C6_length_matches_text inpC6 "No extractable text found with pikepdf".toList 38
    ["pdfplumber".toList, "pypdf2".toList, "pikepdf".toList] (by decide)

/-- C7: `main` is a deterministic function of the command line, the
file-existence check and the libraries' behavior on the file: two runs that
agree on those three produce the same printed object and exit status. -/
theorem C7_deterministic (i1 i2 : RunInput) (h1 : i1.argv = i2.argv)
    (h2 : i1.pathExists = i2.pathExists) (h3 : i1.lib = i2.lib) :
    runMain i1 = runMain i2 := by
  have h : i1 = i2 := by
    obtain ⟨a1, p1, l1⟩ := i1
    obtain ⟨a2, p2, l2⟩ := i2
    simp only [RunInput.mk.injEq]
    exact ⟨h1, h2, h3⟩
  rw [h]

/-- Concrete run for claim C7. -/
def inpC7 : RunInput :=
  ⟨["prog".toList, "f.pdf".toList], true, ⟨Except.ok [some "hello".toList], Except.ok [], Except.ok []⟩⟩

/-- C7 witness: the statement applied to two (equal) concrete runs. -/
theorem C7_witness : runMain inpC7 = runMain inpC7 :=
  C7_deterministic inpC7 inpC7 rfl rfl rfl
